import Mathlib

/-!
# Verification of the fakefs preload library core
(`src/portage/bin/fakefs/preload/fakefs_preload.c`)

The C library intercepts stat/chown/chmod-family libc entry points. For each
call it decides between a fast path (a direct kernel syscall carrying a
backdoor key recognized by the external fakefs tracer) and a slow path
(forwarding to the true libc implementation, which the tracer intercepts).

We model the library in a state-passing style. The outcomes of the external
primitives (getxattr, openat, removexattr, the raw backdoor syscalls and the
resolved libc implementations) are supplied by an oracle structure `Env`; a
state `St` carries the thread's `errno` and a trace of the externally visible
events the library performed. Each C function is translated line by line into
a Lean function over `Env × St`.
-/

/-- Linux errno: no data available (xattr absent). -/
def ENODATA : Nat := 61

/-- Linux errno: operation not supported. -/
def ENOTSUP : Nat := 95

/-- Linux errno: no such file or directory. -/
def ENOENT : Nat := 2

/-- Linux errno: not a directory. -/
def ENOTDIR : Nat := 20

/-- Linux errno: bad address. -/
def EFAULT : Nat := 14

/-- Linux errno: operation not permitted. -/
def EPERM : Nat := 1

/-- The `AT_FDCWD` special dirfd value. -/
def AT_FDCWD : Int := -100

/-- The `AT_SYMLINK_NOFOLLOW` flag bit. -/
def AT_SYMLINK_NOFOLLOW : Nat := 0x100

/-- The `AT_EMPTY_PATH` flag bit. -/
def AT_EMPTY_PATH : Nat := 0x1000

/-- The fast-path signal constant (`FAKEFS_BACKDOOR_KEY` in the source). -/
def FAKEFS_BACKDOOR_KEY : Int := 0x20221107

/-- The override-marker extended-attribute name (`OVERRIDE_XATTR_NAME`). -/
def OVERRIDE_XATTR_NAME : String := "user.fakefs.override"

/-- The true (unfaked) ownership returned by the raw `newfstatat` syscall;
only the fields the library reads. -/
structure FStat where
  st_uid : Nat
  st_gid : Nat
deriving DecidableEq, Repr

/-- Externally visible events performed by the library. `getxattr` records the
buffer size passed (the probe always passes a zero-sized buffer); `removexattr`
records whether the kernel reported success; the `backdoor_*` events are raw
syscalls carrying the fast-path key; the `libc_*` events are calls forwarded to
the resolved true implementations. -/
inductive Ev where
  | getxattr (pathname : String) (follow : Bool) (size : Nat)
  | removexattr (pathname : String) (follow : Bool) (ok : Bool)
  | openat (dirfd : Int) (pathname : String) (nofollow : Bool) (ret : Int)
  | close (fd : Int)
  | backdoor_fstatat (dirfd : Int) (pathname : String) (flags : Nat) (key : Int)
  | backdoor_statx (dirfd : Int) (pathname : String) (flags : Nat) (mask : Nat) (key : Int)
  | backdoor_fchownat (dirfd : Int) (pathname : String) (owner group : Nat) (flags : Nat)
      (key : Int)
  | libc_fstatat (dirfd : Int) (pathname : String) (flags : Nat)
  | libc_statx (dirfd : Int) (pathname : String) (flags : Nat) (mask : Nat)
  | libc_fchownat (dirfd : Int) (pathname : String) (owner group : Nat) (flags : Nat)
  | libc_fchmodat (dirfd : Int) (pathname : Option String) (mode : Nat) (flags : Nat)
deriving DecidableEq, Repr

/-- Thread-visible state: the current `errno` and the trace of events so far. -/
structure St where
  errno : Nat
  trace : List Ev
deriving DecidableEq, Repr

/-- Oracle for the outcomes of all external primitives the library calls, plus
the two environment-driven configuration flags read at initialization.
`Except.error e` means the primitive fails and sets `errno` to `e`;
`Except.ok` carries the success result (and leaves `errno` untouched). -/
structure Env where
  g_verbose : Bool
  g_abort_on_slow : Bool
  getxattrRes : String → Except Nat Nat
  lgetxattrRes : String → Except Nat Nat
  removexattrRes : String → Except Nat Unit
  lremovexattrRes : String → Except Nat Unit
  openatRes : Int → String → Bool → Except Nat Nat
  backdoorFstatatRes : Int → String → Nat → Except Nat FStat
  backdoorStatxRes : Int → String → Nat → Nat → Except Nat Unit
  backdoorFchownatRes : Int → String → Nat → Nat → Nat → Except Nat Unit
  libcFstatatRes : Int → String → Nat → Except Nat Int
  libcStatxRes : Int → String → Nat → Nat → Except Nat Int
  libcFchownatRes : Int → String → Nat → Nat → Nat → Except Nat Int
  libcFchmodatRes : Int → Option String → Nat → Nat → Except Nat Int

/-- Result of a wrapped entry point: a return value with the final state, or a
process abort (strict mode). -/
inductive Outcome where
  | ret (v : Int) (st : St)
  | abort (st : St)
deriving DecidableEq, Repr

def Outcome.st : Outcome → St
  | .ret _ s => s
  | .abort s => s

def Outcome.trace (o : Outcome) : List Ev := o.st.trace

def Outcome.errno (o : Outcome) : Nat := o.st.errno

def Outcome.retVal : Outcome → Option Int
  | .ret v _ => some v
  | .abort _ => none

def Outcome.isAbort : Outcome → Bool
  | .abort _ => true
  | .ret _ _ => false

/-- The path `"/proc/self/fd/%d"` built by `sprintf` in `fd_has_no_override`
and `fd_clear_override`. -/
def mkFdPath (fd : Int) : String := "/proc/self/fd/" ++ toString fd

/-- Test `pathname[0] == '/'` on a C string. -/
def isAbs (p : String) : Bool :=
  match p.toList with
  | [] => false
  | c :: _ => c == '/'

/-- One call to `getxattr` (follow) or `lgetxattr` (no follow) with a NULL,
zero-length buffer: returns the attribute size or `-1` setting `errno`. -/
def doGetxattr (env : Env) (st : St) (pathname : String) (follow : Bool) : Int × St :=
  match (if follow then env.getxattrRes pathname else env.lgetxattrRes pathname) with
  | .ok n => (Int.ofNat n, ⟨st.errno, st.trace ++ [Ev.getxattr pathname follow 0]⟩)
  | .error e => (-1, ⟨e, st.trace ++ [Ev.getxattr pathname follow 0]⟩)

/-- One call to `removexattr` (follow) or `lremovexattr` (no follow):
returns `0` or `-1` setting `errno`. -/
def doRemovexattr (env : Env) (st : St) (pathname : String) (follow : Bool) : Int × St :=
  match (if follow then env.removexattrRes pathname else env.lremovexattrRes pathname) with
  | .ok _ => (0, ⟨st.errno, st.trace ++ [Ev.removexattr pathname follow true]⟩)
  | .error e => (-1, ⟨e, st.trace ++ [Ev.removexattr pathname follow false]⟩)

/-- One call to `openat`: returns the new fd (nonnegative) or `-1` setting
`errno`. -/
def doOpenat (env : Env) (st : St) (dirfd : Int) (pathname : String) (nofollow : Bool) :
    Int × St :=
  match env.openatRes dirfd pathname nofollow with
  | .ok fd =>
      (Int.ofNat fd, ⟨st.errno, st.trace ++ [Ev.openat dirfd pathname nofollow (Int.ofNat fd)]⟩)
  | .error e => (-1, ⟨e, st.trace ++ [Ev.openat dirfd pathname nofollow (-1)]⟩)

/-- One call to `close` (its result is ignored by the library). -/
def doClose (st : St) (fd : Int) : St :=
  ⟨st.errno, st.trace ++ [Ev.close fd]⟩

/-- Model of `backdoor_fstatat`: raw `SYS_newfstatat` carrying `FAKEFS_BACKDOOR_KEY` as
an extra argument. Returns the syscall result and, on success, the stat data. -/
def backdoor_fstatat (env : Env) (st : St) (dirfd : Int) (pathname : String) (flags : Nat) :
    Int × Option FStat × St :=
  match env.backdoorFstatatRes dirfd pathname flags with
  | .ok s =>
      (0, some s,
        ⟨st.errno, st.trace ++ [Ev.backdoor_fstatat dirfd pathname flags FAKEFS_BACKDOOR_KEY]⟩)
  | .error e =>
      (-1, none,
        ⟨e, st.trace ++ [Ev.backdoor_fstatat dirfd pathname flags FAKEFS_BACKDOOR_KEY]⟩)

/-- Model of `backdoor_statx`: raw `SYS_statx` carrying `FAKEFS_BACKDOOR_KEY`. -/
def backdoor_statx (env : Env) (st : St) (dirfd : Int) (pathname : String) (flags : Nat)
    (mask : Nat) : Int × St :=
  match env.backdoorStatxRes dirfd pathname flags mask with
  | .ok _ =>
      (0, ⟨st.errno,
        st.trace ++ [Ev.backdoor_statx dirfd pathname flags mask FAKEFS_BACKDOOR_KEY]⟩)
  | .error e =>
      (-1, ⟨e, st.trace ++ [Ev.backdoor_statx dirfd pathname flags mask FAKEFS_BACKDOOR_KEY]⟩)

/-- Model of `backdoor_fchownat`: raw `SYS_fchownat` carrying `FAKEFS_BACKDOOR_KEY`. -/
def backdoor_fchownat (env : Env) (st : St) (dirfd : Int) (pathname : String)
    (owner group : Nat) (flags : Nat) : Int × St :=
  match env.backdoorFchownatRes dirfd pathname owner group flags with
  | .ok _ =>
      (0, ⟨st.errno,
        st.trace ++ [Ev.backdoor_fchownat dirfd pathname owner group flags
          FAKEFS_BACKDOOR_KEY]⟩)
  | .error e =>
      (-1,
        ⟨e, st.trace ++ [Ev.backdoor_fchownat dirfd pathname owner group flags
          FAKEFS_BACKDOOR_KEY]⟩)

/-- Forwarded call to the resolved true `fstatat`. -/
def doLibcFstatat (env : Env) (st : St) (dirfd : Int) (pathname : String) (flags : Nat) :
    Int × St :=
  match env.libcFstatatRes dirfd pathname flags with
  | .ok v => (v, ⟨st.errno, st.trace ++ [Ev.libc_fstatat dirfd pathname flags]⟩)
  | .error e => (-1, ⟨e, st.trace ++ [Ev.libc_fstatat dirfd pathname flags]⟩)

/-- Forwarded call to the resolved true `statx`. -/
def doLibcStatx (env : Env) (st : St) (dirfd : Int) (pathname : String) (flags : Nat)
    (mask : Nat) : Int × St :=
  match env.libcStatxRes dirfd pathname flags mask with
  | .ok v => (v, ⟨st.errno, st.trace ++ [Ev.libc_statx dirfd pathname flags mask]⟩)
  | .error e => (-1, ⟨e, st.trace ++ [Ev.libc_statx dirfd pathname flags mask]⟩)

/-- Forwarded call to the resolved true `fchownat`. -/
def doLibcFchownat (env : Env) (st : St) (dirfd : Int) (pathname : String)
    (owner group : Nat) (flags : Nat) : Int × St :=
  match env.libcFchownatRes dirfd pathname owner group flags with
  | .ok v => (v, ⟨st.errno, st.trace ++ [Ev.libc_fchownat dirfd pathname owner group flags]⟩)
  | .error e => (-1, ⟨e, st.trace ++ [Ev.libc_fchownat dirfd pathname owner group flags]⟩)

/-- Forwarded call to the resolved true `fchmodat`; the pathname is passed
through unvalidated, so it may be NULL (`none`). -/
def doLibcFchmodat (env : Env) (st : St) (dirfd : Int) (pathname : Option String)
    (mode : Nat) (flags : Nat) : Int × St :=
  match env.libcFchmodatRes dirfd pathname mode flags with
  | .ok v => (v, ⟨st.errno, st.trace ++ [Ev.libc_fchmodat dirfd pathname mode flags]⟩)
  | .error e => (-1, ⟨e, st.trace ++ [Ev.libc_fchmodat dirfd pathname mode flags]⟩)

/-- Model of `path_has_no_override`: a zero-length read of `OVERRIDE_XATTR_NAME`; true
iff the read failed with ENODATA, ENOTSUP, ENOENT or ENOTDIR. -/
def path_has_no_override (env : Env) (st : St) (pathname : String) (follow_symlink : Bool) :
    Bool × St :=
  let r := doGetxattr env st pathname follow_symlink
  (decide (r.1 < 0) &&
      (r.2.errno == ENODATA || r.2.errno == ENOTSUP || r.2.errno == ENOENT ||
        r.2.errno == ENOTDIR),
    r.2)

/-- Model of `fd_has_no_override`: probe via `/proc/self/fd/N`. -/
def fd_has_no_override (env : Env) (st : St) (fd : Int) : Bool × St :=
  path_has_no_override env st (mkFdPath fd) true

/-- Model of `has_no_override`: normalize the addressing form, probe the marker, and
restore the caller's `errno`. -/
def has_no_override (env : Env) (st : St) (dirfd : Int) (pathname : String) (flags : Nat) :
    Bool × St :=
  let saved_errno := st.errno
  let r :=
    if flags &&& AT_EMPTY_PATH ≠ 0 ∧ pathname = "" then
      fd_has_no_override env st dirfd
    else if dirfd = AT_FDCWD ∨ isAbs pathname = true then
      path_has_no_override env st pathname (flags &&& AT_SYMLINK_NOFOLLOW = 0)
    else
      let o := doOpenat env st dirfd pathname (flags &&& AT_SYMLINK_NOFOLLOW ≠ 0)
      if o.1 ≥ 0 then
        let r2 := fd_has_no_override env o.2 o.1
        (r2.1, doClose r2.2 o.1)
      else
        (false, o.2)
  (r.1, ⟨saved_errno, r.2.trace⟩)

/-- Model of `path_clear_override`: remove `OVERRIDE_XATTR_NAME`; true iff removal
succeeded or failed with ENODATA, ENOTSUP or EPERM. -/
def path_clear_override (env : Env) (st : St) (pathname : String) (follow_symlink : Bool) :
    Bool × St :=
  let r := doRemovexattr env st pathname follow_symlink
  (r.1 == 0 || r.2.errno == ENODATA || r.2.errno == ENOTSUP || r.2.errno == EPERM, r.2)

/-- Model of `fd_clear_override`: clear via `/proc/self/fd/N`. -/
def fd_clear_override (env : Env) (st : St) (fd : Int) : Bool × St :=
  path_clear_override env st (mkFdPath fd) true

/-- Model of `clear_override`: normalize the addressing form, clear the marker, and
restore the caller's `errno`. -/
def clear_override (env : Env) (st : St) (dirfd : Int) (pathname : String) (flags : Nat) :
    Bool × St :=
  let saved_errno := st.errno
  let r :=
    if flags &&& AT_EMPTY_PATH ≠ 0 ∧ pathname = "" then
      fd_clear_override env st dirfd
    else if dirfd = AT_FDCWD ∨ isAbs pathname = true then
      path_clear_override env st pathname (flags &&& AT_SYMLINK_NOFOLLOW = 0)
    else
      let o := doOpenat env st dirfd pathname (flags &&& AT_SYMLINK_NOFOLLOW ≠ 0)
      if o.1 ≥ 0 then
        let r2 := fd_clear_override env o.2 o.1
        (r2.1, doClose r2.2 o.1)
      else
        (false, o.2)
  (r.1, ⟨saved_errno, r.2.trace⟩)

/-- Model of `matches_original_ownership`: read the true ownership via the fast-path
stat, compare against the requested UID/GID, and restore `errno`. -/
def matches_original_ownership (env : Env) (st : St) (dirfd : Int) (pathname : String)
    (flags : Nat) (owner group : Nat) : Bool × St :=
  let saved_errno := st.errno
  let r := backdoor_fstatat env st dirfd pathname flags
  let matched :=
    r.1 == 0 &&
      (match r.2.1 with
       | some s => s.st_uid == owner && s.st_gid == group
       | none => false)
  (matched, ⟨saved_errno, r.2.2.trace⟩)

/-- Model of `wrap_fstatat`: validate the pointers, probe the marker, then take the
fast path, abort in strict mode, or forward to the true implementation. -/
def wrap_fstatat (env : Env) (st : St) (dirfd : Int) (pathname : Option String)
    (statbuf_null : Bool) (flags : Nat) : Outcome :=
  match pathname with
  | none => .ret (-1) ⟨EFAULT, st.trace⟩
  | some p =>
    if statbuf_null then .ret (-1) ⟨EFAULT, st.trace⟩
    else
      let pr := has_no_override env st dirfd p flags
      if pr.1 then
        let r := backdoor_fstatat env pr.2 dirfd p flags
        .ret r.1 r.2.2
      else if env.g_abort_on_slow then .abort pr.2
      else
        let r := doLibcFstatat env pr.2 dirfd p flags
        .ret r.1 r.2

/-- Model of `wrap_statx`: same policy as `wrap_fstatat` for the extended stat form. -/
def wrap_statx (env : Env) (st : St) (dirfd : Int) (pathname : Option String) (flags : Nat)
    (mask : Nat) (statxbuf_null : Bool) : Outcome :=
  match pathname with
  | none => .ret (-1) ⟨EFAULT, st.trace⟩
  | some p =>
    if statxbuf_null then .ret (-1) ⟨EFAULT, st.trace⟩
    else
      let pr := has_no_override env st dirfd p flags
      if pr.1 then
        let r := backdoor_statx env pr.2 dirfd p flags mask
        .ret r.1 r.2
      else if env.g_abort_on_slow then .abort pr.2
      else
        let r := doLibcStatx env pr.2 dirfd p flags mask
        .ret r.1 r.2

/-- Model of `wrap_fchownat`: if the requested ownership matches the true ownership and
the marker clears, issue the fast-path chown (still updating ctime); otherwise
abort in strict mode or forward. -/
def wrap_fchownat (env : Env) (st : St) (dirfd : Int) (pathname : Option String)
    (owner group : Nat) (flags : Nat) : Outcome :=
  match pathname with
  | none => .ret (-1) ⟨EFAULT, st.trace⟩
  | some p =>
    let fallback := fun (st1 : St) =>
      if env.g_abort_on_slow then Outcome.abort st1
      else
        let r := doLibcFchownat env st1 dirfd p owner group flags
        Outcome.ret r.1 r.2
    let m := matches_original_ownership env st dirfd p flags owner group
    if m.1 then
      let c := clear_override env m.2 dirfd p flags
      if c.1 then
        let r := backdoor_fchownat env c.2 dirfd p owner group flags
        .ret r.1 r.2
      else fallback c.2
    else fallback m.2

/-- Model of `wrap_fchmodat`: reject `AT_SYMLINK_NOFOLLOW` with ENOTSUP (simulating old
glibc), otherwise forward unmodified (the pathname is never validated). -/
def wrap_fchmodat (env : Env) (st : St) (dirfd : Int) (pathname : Option String)
    (mode : Nat) (flags : Nat) : Outcome :=
  if flags &&& AT_SYMLINK_NOFOLLOW ≠ 0 then
    .ret (-1) ⟨ENOTSUP, st.trace⟩
  else
    let r := doLibcFchmodat env st dirfd pathname mode flags
    .ret r.1 r.2

/-! ## Derived notions used to state the claims -/

/-- Classification the probe applies to a `getxattr`/`lgetxattr` outcome:
only the failures ENODATA, ENOTSUP, ENOENT, ENOTDIR mean "no overlay". -/
def classifyProbe : Except Nat Nat → Bool
  | .ok _ => false
  | .error e => e == ENODATA || e == ENOTSUP || e == ENOENT || e == ENOTDIR

/-- Classification `path_clear_override` applies to a `removexattr` outcome:
success, or failure with ENODATA, ENOTSUP or EPERM, mean "marker now absent /
no longer enforceable". -/
def classifyClear : Except Nat Unit → Bool
  | .ok _ => true
  | .error e => e == ENODATA || e == ENOTSUP || e == EPERM

/-- Return value of a raw stat-like syscall given its oracle outcome. -/
def statRet (r : Except Nat FStat) : Int :=
  match r with
  | .ok _ => 0
  | .error _ => -1

/-- Return value of a raw syscall returning 0 on success. -/
def unitRet (r : Except Nat Unit) : Int :=
  match r with
  | .ok _ => 0
  | .error _ => -1

/-- Return value of a forwarded libc call given its oracle outcome. -/
def intRet (r : Except Nat Int) : Int :=
  match r with
  | .ok v => v
  | .error _ => -1

/-- Value of `errno` after a primitive: unchanged on success, the error code on
failure. -/
def retErrno {α : Type} (old : Nat) : Except Nat α → Nat
  | .ok _ => old
  | .error e => e

/-- Events a marker probe may emit: zero-length attribute reads, short-lived
opens and their closes. -/
def isProbeEv : Ev → Bool
  | .getxattr _ _ n => n == 0
  | .openat _ _ _ _ => true
  | .close _ => true
  | _ => false

/-- Events a marker clear may emit. -/
def isClearEv : Ev → Bool
  | .removexattr _ _ _ => true
  | .openat _ _ _ _ => true
  | .close _ => true
  | _ => false

/-- Fast-path signal events (raw syscalls carrying the backdoor key). -/
def isBackdoorEv : Ev → Bool
  | .backdoor_fstatat _ _ _ _ => true
  | .backdoor_statx _ _ _ _ _ => true
  | .backdoor_fchownat _ _ _ _ _ _ => true
  | _ => false

/-- Marker-mutating events: any attempt to remove the override attribute. -/
def isMarkerWrite : Ev → Bool
  | .removexattr _ _ _ => true
  | _ => false

/-- A successful marker removal. -/
def isMarkerRemoveOk : Ev → Bool
  | .removexattr _ _ ok => ok
  | _ => false

/-- Zero-length attribute reads only (the probe never reads attribute
contents). -/
def getxZero : Ev → Bool
  | .getxattr _ _ n => n == 0
  | _ => true

/-- Effect of one event on the set of files carrying the override marker
(indexed by the path string used to address them): only a successful
`removexattr` changes the set, and it only removes. -/
def markerStep (m : String → Bool) : Ev → String → Bool
  | .removexattr p _ true => fun q => if q = p then false else m q
  | _ => fun q => m q

/-- Marker state after a trace of events. -/
def runMarkers (m : String → Bool) (tr : List Ev) : String → Bool :=
  tr.foldl markerStep m

/-! ## Shared helper lemmas -/

theorem markerStep_le (m : String → Bool) (e : Ev) (q : String)
    (h : markerStep m e q = true) : m q = true := by
  cases e with
  | removexattr p fo ok =>
      cases ok with
      | false => exact h
      | true =>
          unfold markerStep at h
          by_cases hq : q = p
          · simp [hq] at h
          · simpa [hq] using h
  | _ => exact h

theorem runMarkers_le (tr : List Ev) (m : String → Bool) (q : String)
    (h : runMarkers m tr q = true) : m q = true := by
  induction tr generalizing m with
  | nil => exact h
  | cons e tr ih => exact markerStep_le m e q (ih (markerStep m e) h)

theorem markerStep_of_not_write (m : String → Bool) (e : Ev)
    (h : isMarkerWrite e = false) : markerStep m e = fun q => m q := by
  cases e <;> simp_all [isMarkerWrite, markerStep]

theorem runMarkers_of_no_write (tr : List Ev) (m : String → Bool)
    (h : tr.all (fun e => !isMarkerWrite e) = true) (q : String) :
    runMarkers m tr q = m q := by
  induction tr generalizing m with
  | nil => rfl
  | cons e tr ih =>
      simp only [List.all_cons, Bool.and_eq_true, Bool.not_eq_true'] at h
      unfold runMarkers at *
      rw [List.foldl_cons, markerStep_of_not_write m e h.1]
      exact ih m (by simpa using h.2)

theorem isProbeEv_not_write (e : Ev) (h : isProbeEv e = true) : isMarkerWrite e = false := by
  cases e <;> simp_all [isProbeEv, isMarkerWrite]

theorem isProbeEv_not_backdoor (e : Ev) (h : isProbeEv e = true) : isBackdoorEv e = false := by
  cases e <;> simp_all [isProbeEv, isBackdoorEv]

theorem path_has_no_override_eq (env : Env) (st : St) (p : String) (fo : Bool) :
    path_has_no_override env st p fo =
      (classifyProbe (if fo then env.getxattrRes p else env.lgetxattrRes p),
        ⟨retErrno st.errno (if fo then env.getxattrRes p else env.lgetxattrRes p),
          st.trace ++ [Ev.getxattr p fo 0]⟩) := by
  unfold path_has_no_override doGetxattr
  cases h : (if fo then env.getxattrRes p else env.lgetxattrRes p) with
  | ok n => simp [h, classifyProbe, retErrno]
  | error e => simp [h, classifyProbe, retErrno]

theorem path_clear_override_eq (env : Env) (st : St) (p : String) (fo : Bool) :
    path_clear_override env st p fo =
      (classifyClear (if fo then env.removexattrRes p else env.lremovexattrRes p),
        ⟨retErrno st.errno (if fo then env.removexattrRes p else env.lremovexattrRes p),
          st.trace ++
            [Ev.removexattr p fo
              (match (if fo then env.removexattrRes p else env.lremovexattrRes p) with
               | .ok _ => true
               | .error _ => false)]⟩) := by
  unfold path_clear_override doRemovexattr
  cases h : (if fo then env.removexattrRes p else env.lremovexattrRes p) with
  | ok u => simp [h, classifyClear, retErrno]
  | error e => simp [h, classifyClear, retErrno]

theorem has_no_override_errno (env : Env) (st : St) (d : Int) (p : String) (f : Nat) :
    (has_no_override env st d p f).2.errno = st.errno := rfl

theorem clear_override_errno (env : Env) (st : St) (d : Int) (p : String) (f : Nat) :
    (clear_override env st d p f).2.errno = st.errno := rfl

theorem matches_original_ownership_errno (env : Env) (st : St) (d : Int) (p : String)
    (f : Nat) (o g : Nat) :
    (matches_original_ownership env st d p f o g).2.errno = st.errno := rfl

theorem matches_original_ownership_state (env : Env) (st : St) (d : Int) (p : String)
    (f : Nat) (o g : Nat) :
    (matches_original_ownership env st d p f o g).2 =
      ⟨st.errno, st.trace ++ [Ev.backdoor_fstatat d p f FAKEFS_BACKDOOR_KEY]⟩ := by
  unfold matches_original_ownership backdoor_fstatat
  cases h : env.backdoorFstatatRes d p f <;> simp [h]

theorem matches_original_ownership_val (env : Env) (st : St) (d : Int) (p : String)
    (f : Nat) (o g : Nat) :
    (matches_original_ownership env st d p f o g).1 =
      (match env.backdoorFstatatRes d p f with
       | .ok s => s.st_uid == o && s.st_gid == g
       | .error _ => false) := by
  unfold matches_original_ownership backdoor_fstatat
  cases h : env.backdoorFstatatRes d p f <;> simp [h]

theorem has_no_override_trace (env : Env) (st : St) (d : Int) (p : String) (f : Nat) :
    ∃ tr, (has_no_override env st d p f).2.trace = st.trace ++ tr ∧
      tr.all isProbeEv = true := by
  unfold has_no_override fd_has_no_override
  by_cases h1 : f &&& AT_EMPTY_PATH ≠ 0 ∧ p = ""
  · refine ⟨[Ev.getxattr (mkFdPath d) true 0], ?_, by simp [isProbeEv]⟩
    simp [h1, path_has_no_override_eq]
  · by_cases h2 : d = AT_FDCWD ∨ isAbs p = true
    · refine ⟨[Ev.getxattr p (decide (f &&& AT_SYMLINK_NOFOLLOW = 0)) 0], ?_,
        by simp [isProbeEv]⟩
      simp [h1, h2, path_has_no_override_eq]
    · cases ho : env.openatRes d p (!decide (f &&& AT_SYMLINK_NOFOLLOW = 0)) with
      | ok fd =>
          refine ⟨[Ev.openat d p (!decide (f &&& AT_SYMLINK_NOFOLLOW = 0)) (Int.ofNat fd),
            Ev.getxattr (mkFdPath (Int.ofNat fd)) true 0, Ev.close (Int.ofNat fd)], ?_,
            by simp [isProbeEv]⟩
          simp [h1, h2, doOpenat, ho, path_has_no_override_eq, doClose]
      | error e =>
          refine ⟨[Ev.openat d p (!decide (f &&& AT_SYMLINK_NOFOLLOW = 0)) (-1)], ?_,
            by simp [isProbeEv]⟩
          simp [h1, h2, doOpenat, ho]

theorem clear_override_trace (env : Env) (st : St) (d : Int) (p : String) (f : Nat) :
    ∃ tr, (clear_override env st d p f).2.trace = st.trace ++ tr ∧
      tr.all isClearEv = true ∧
      ((clear_override env st d p f).1 = false →
        tr.all (fun e => !isMarkerRemoveOk e) = true) := by
  unfold clear_override fd_clear_override
  by_cases h1 : f &&& AT_EMPTY_PATH ≠ 0 ∧ p = ""
  · cases hr : env.removexattrRes (mkFdPath d) with
    | ok u =>
        refine ⟨[Ev.removexattr (mkFdPath d) true true], ?_, by simp [isClearEv], ?_⟩
        · simp [h1, path_clear_override_eq, hr]
        · simp [h1, path_clear_override_eq, hr, classifyClear]
    | error e =>
        refine ⟨[Ev.removexattr (mkFdPath d) true false], ?_, by simp [isClearEv], ?_⟩
        · simp [h1, path_clear_override_eq, hr]
        · simp [isMarkerRemoveOk]
  · by_cases h2 : d = AT_FDCWD ∨ isAbs p = true
    · cases hr : (if f &&& AT_SYMLINK_NOFOLLOW = 0 then
        env.removexattrRes p else env.lremovexattrRes p) with
      | ok u =>
          refine ⟨[Ev.removexattr p (decide (f &&& AT_SYMLINK_NOFOLLOW = 0)) true], ?_,
            by simp [isClearEv], ?_⟩
          · simp [h1, h2, path_clear_override_eq, hr]
          · simp [h1, h2, path_clear_override_eq, hr, classifyClear]
      | error e =>
          refine ⟨[Ev.removexattr p (decide (f &&& AT_SYMLINK_NOFOLLOW = 0)) false], ?_,
            by simp [isClearEv], ?_⟩
          · simp [h1, h2, path_clear_override_eq, hr]
          · simp [isMarkerRemoveOk]
    · cases ho : env.openatRes d p (!decide (f &&& AT_SYMLINK_NOFOLLOW = 0)) with
      | ok fd =>
          cases hr : env.removexattrRes (mkFdPath (fd : Int)) with
          | ok u =>
              refine ⟨[Ev.openat d p (!decide (f &&& AT_SYMLINK_NOFOLLOW = 0)) (Int.ofNat fd),
                Ev.removexattr (mkFdPath (fd : Int)) true true,
                Ev.close (Int.ofNat fd)], ?_, by simp [isClearEv], ?_⟩
              · simp [h1, h2, doOpenat, ho, path_clear_override_eq, hr, doClose]
              · simp [h1, h2, doOpenat, ho, path_clear_override_eq, hr, classifyClear]
          | error e =>
              refine ⟨[Ev.openat d p (!decide (f &&& AT_SYMLINK_NOFOLLOW = 0)) (Int.ofNat fd),
                Ev.removexattr (mkFdPath (fd : Int)) true false,
                Ev.close (Int.ofNat fd)], ?_, by simp [isClearEv], ?_⟩
              · simp [h1, h2, doOpenat, ho, path_clear_override_eq, hr, doClose]
              · simp [isMarkerRemoveOk]
      | error e =>
          refine ⟨[Ev.openat d p (!decide (f &&& AT_SYMLINK_NOFOLLOW = 0)) (-1)], ?_,
            by simp [isClearEv], ?_⟩
          · simp [h1, h2, doOpenat, ho]
          · simp [isMarkerRemoveOk]

/-- Read-only events: no marker mutation and any attribute read is
zero-length. -/
def readOnlyEv (e : Ev) : Bool := !isMarkerWrite e && getxZero e

theorem isProbeEv_readonly (e : Ev) (h : isProbeEv e = true) : readOnlyEv e = true := by
  cases e <;> simp_all [isProbeEv, readOnlyEv, isMarkerWrite, getxZero]

theorem markerStep_of_not_removeOk (m : String → Bool) (e : Ev)
    (h : isMarkerRemoveOk e = false) : markerStep m e = fun q => m q := by
  cases e with
  | removexattr p fo ok =>
      cases ok with
      | false => rfl
      | true => simp [isMarkerRemoveOk] at h
  | _ => rfl

theorem runMarkers_of_no_removeOk (tr : List Ev) (m : String → Bool)
    (h : tr.all (fun e => !isMarkerRemoveOk e) = true) (q : String) :
    runMarkers m tr q = m q := by
  induction tr generalizing m with
  | nil => rfl
  | cons e tr ih =>
      simp only [List.all_cons, Bool.and_eq_true, Bool.not_eq_true'] at h
      unfold runMarkers at *
      rw [List.foldl_cons, markerStep_of_not_removeOk m e h.1]
      exact ih m (by simpa using h.2)

theorem readonly_not_removeOk (e : Ev) (h : readOnlyEv e = true) :
    isMarkerRemoveOk e = false := by
  cases e <;> simp_all [readOnlyEv, isMarkerWrite, isMarkerRemoveOk]

theorem all_probe_all_readonly (tr : List Ev) (h : tr.all isProbeEv = true) :
    tr.all readOnlyEv = true := by
  simp only [List.all_eq_true] at h ⊢
  exact fun e he => isProbeEv_readonly e (h e he)

theorem all_readonly_no_removeOk (tr : List Ev) (h : tr.all readOnlyEv = true) :
    tr.all (fun e => !isMarkerRemoveOk e) = true := by
  simp only [List.all_eq_true] at h ⊢
  intro e he
  simp [readonly_not_removeOk e (h e he)]

theorem all_probe_not_backdoor (tr : List Ev) (h : tr.all isProbeEv = true) :
    tr.all (fun e => !isBackdoorEv e) = true := by
  simp only [List.all_eq_true] at h ⊢
  intro e he
  simp [isProbeEv_not_backdoor e (h e he)]

/-- The trace added by `wrap_fstatat` consists of read-only events
(zero-length attribute reads, opens/closes and the final stat call). -/
theorem wrap_fstatat_readonly (env : Env) (st : St) (d : Int) (p : Option String)
    (sn : Bool) (f : Nat) :
    ∃ tr, (wrap_fstatat env st d p sn f).trace = st.trace ++ tr ∧
      tr.all readOnlyEv = true := by
  cases p with
  | none => exact ⟨[], by simp [wrap_fstatat, Outcome.trace, Outcome.st], by simp⟩
  | some p =>
      unfold wrap_fstatat
      by_cases hsn : sn
      · exact ⟨[], by simp [hsn, Outcome.trace, Outcome.st], by simp⟩
      · obtain ⟨tr, htr, hall⟩ := has_no_override_trace env st d p f
        by_cases hpr : (has_no_override env st d p f).1
        · refine ⟨tr ++ [Ev.backdoor_fstatat d p f FAKEFS_BACKDOOR_KEY], ?_, ?_⟩
          · cases hB : env.backdoorFstatatRes d p f <;>
              simp [hsn, hpr, backdoor_fstatat, hB, Outcome.trace, Outcome.st, htr]
          · simp [List.all_append, all_probe_all_readonly tr hall, readOnlyEv,
              isMarkerWrite, getxZero]
        · by_cases hab : env.g_abort_on_slow
          · refine ⟨tr, ?_, all_probe_all_readonly tr hall⟩
            simp [hsn, hpr, hab, Outcome.trace, Outcome.st, htr]
          · refine ⟨tr ++ [Ev.libc_fstatat d p f], ?_, ?_⟩
            · cases hL : env.libcFstatatRes d p f <;>
                simp [hsn, hpr, hab, doLibcFstatat, hL, Outcome.trace, Outcome.st, htr]
            · simp [List.all_append, all_probe_all_readonly tr hall, readOnlyEv,
                isMarkerWrite, getxZero]

/-- The trace added by `wrap_statx` consists of read-only events. -/
theorem wrap_statx_readonly (env : Env) (st : St) (d : Int) (p : Option String)
    (f mask : Nat) (sn : Bool) :
    ∃ tr, (wrap_statx env st d p f mask sn).trace = st.trace ++ tr ∧
      tr.all readOnlyEv = true := by
  cases p with
  | none => exact ⟨[], by simp [wrap_statx, Outcome.trace, Outcome.st], by simp⟩
  | some p =>
      unfold wrap_statx
      by_cases hsn : sn
      · exact ⟨[], by simp [hsn, Outcome.trace, Outcome.st], by simp⟩
      · obtain ⟨tr, htr, hall⟩ := has_no_override_trace env st d p f
        by_cases hpr : (has_no_override env st d p f).1
        · refine ⟨tr ++ [Ev.backdoor_statx d p f mask FAKEFS_BACKDOOR_KEY], ?_, ?_⟩
          · cases hB : env.backdoorStatxRes d p f mask <;>
              simp [hsn, hpr, backdoor_statx, hB, Outcome.trace, Outcome.st, htr]
          · simp [List.all_append, all_probe_all_readonly tr hall, readOnlyEv,
              isMarkerWrite, getxZero]
        · by_cases hab : env.g_abort_on_slow
          · refine ⟨tr, ?_, all_probe_all_readonly tr hall⟩
            simp [hsn, hpr, hab, Outcome.trace, Outcome.st, htr]
          · refine ⟨tr ++ [Ev.libc_statx d p f mask], ?_, ?_⟩
            · cases hL : env.libcStatxRes d p f mask <;>
                simp [hsn, hpr, hab, doLibcStatx, hL, Outcome.trace, Outcome.st, htr]
            · simp [List.all_append, all_probe_all_readonly tr hall, readOnlyEv,
                isMarkerWrite, getxZero]

theorem runMarkers_append (m : String → Bool) (tr1 tr2 : List Ev) :
    runMarkers m (tr1 ++ tr2) = runMarkers (runMarkers m tr1) tr2 := by
  unfold runMarkers
  rw [List.foldl_append]

/-- When the requested ownership does not match the true ownership,
`wrap_fchownat` adds only the ownership probe and (possibly) the forwarded
call: no marker mutation at all. -/
theorem wrap_fchownat_no_write_of_not_matched (env : Env) (st : St) (d : Int) (p : String)
    (o g f : Nat) (h : (matches_original_ownership env st d p f o g).1 = false) :
    ∃ tr, (wrap_fchownat env st d (some p) o g f).trace = st.trace ++ tr ∧
      tr.all (fun e => !isMarkerWrite e) = true := by
  unfold wrap_fchownat
  by_cases hab : env.g_abort_on_slow
  · refine ⟨[Ev.backdoor_fstatat d p f FAKEFS_BACKDOOR_KEY], ?_, by simp [isMarkerWrite]⟩
    simp [h, hab, Outcome.trace, Outcome.st, matches_original_ownership_state]
  · refine ⟨[Ev.backdoor_fstatat d p f FAKEFS_BACKDOOR_KEY,
      Ev.libc_fchownat d p o g f], ?_, by simp [isMarkerWrite]⟩
    cases hL : env.libcFchownatRes d p o g f <;>
      simp [h, hab, doLibcFchownat, hL, Outcome.trace, Outcome.st,
        matches_original_ownership_state]

/-! ## Concrete environments and inputs used as witnesses -/

/-- A relative pathname. -/
def pRel : String := "data"

/-- An absolute pathname. -/
def pAbsX : String := "/x"

/-- Environment in which every marker probe reports ENODATA (no overlay on any
file), every removal succeeds, the true ownership of every file is 1000:1000,
and every syscall succeeds. -/
def envFast : Env where
  g_verbose := false
  g_abort_on_slow := false
  getxattrRes := fun _ => Except.error ENODATA
  lgetxattrRes := fun _ => Except.error ENODATA
  removexattrRes := fun _ => Except.ok ()
  lremovexattrRes := fun _ => Except.ok ()
  openatRes := fun _ _ _ => Except.ok 7
  backdoorFstatatRes := fun _ _ _ => Except.ok ⟨1000, 1000⟩
  backdoorStatxRes := fun _ _ _ _ => Except.ok ()
  backdoorFchownatRes := fun _ _ _ _ _ => Except.ok ()
  libcFstatatRes := fun _ _ _ => Except.ok 0
  libcStatxRes := fun _ _ _ _ => Except.ok 0
  libcFchownatRes := fun _ _ _ _ _ => Except.ok 0
  libcFchmodatRes := fun _ _ _ _ => Except.ok 0

/-- Like `envFast` but every file carries the override marker (zero-length
attribute read succeeds). -/
def envSlow : Env :=
  { envFast with
    getxattrRes := fun _ => Except.ok 0
    lgetxattrRes := fun _ => Except.ok 0 }

/-- Model of `envSlow` with strict abort-on-slow mode enabled. -/
def envSlowAbort : Env :=
  { envSlow with g_abort_on_slow := true }

/-- Model of `envFast` but marker removal fails with EIO (an error outside the
tolerated set). -/
def envClearFail : Env :=
  { envFast with
    removexattrRes := fun _ => Except.error 5
    lremovexattrRes := fun _ => Except.error 5 }

/-- Model of `envFast` but the fast-path chown syscall fails with EPERM. -/
def envChownFail : Env :=
  { envFast with backdoorFchownatRes := fun _ _ _ _ _ => Except.error EPERM }

/-! ## Claims -/

/-- C1: For every metadata-read wrapper (`wrap_fstatat`, `wrap_statx`) with
non-null pathname and result buffer: if the override-marker probe concludes no
overlay exists, the wrapper issues the operation through the fast-path channel
(direct syscall carrying `FAKEFS_BACKDOOR_KEY`) and returns that syscall's
result unchanged; if the probe concludes an overlay may exist, then with
`g_abort_on_slow` enabled the process aborts, and with it disabled the call is
forwarded unchanged to the resolved true implementation and no fast-path
signal is ever emitted. -/
theorem fakefs_C1_stat_fast_slow (env : Env) (e0 : Nat) (d : Int) (p : String)
    (f mask : Nat) :
    ((has_no_override env ⟨e0, []⟩ d p f).1 = true →
      wrap_fstatat env ⟨e0, []⟩ d (some p) false f =
        Outcome.ret (statRet (env.backdoorFstatatRes d p f))
          ⟨retErrno e0 (env.backdoorFstatatRes d p f),
            (has_no_override env ⟨e0, []⟩ d p f).2.trace ++
              [Ev.backdoor_fstatat d p f FAKEFS_BACKDOOR_KEY]⟩ ∧
      wrap_statx env ⟨e0, []⟩ d (some p) f mask false =
        Outcome.ret (unitRet (env.backdoorStatxRes d p f mask))
          ⟨retErrno e0 (env.backdoorStatxRes d p f mask),
            (has_no_override env ⟨e0, []⟩ d p f).2.trace ++
              [Ev.backdoor_statx d p f mask FAKEFS_BACKDOOR_KEY]⟩) ∧
    ((has_no_override env ⟨e0, []⟩ d p f).1 = false → env.g_abort_on_slow = true →
      wrap_fstatat env ⟨e0, []⟩ d (some p) false f =
        Outcome.abort (has_no_override env ⟨e0, []⟩ d p f).2 ∧
      wrap_statx env ⟨e0, []⟩ d (some p) f mask false =
        Outcome.abort (has_no_override env ⟨e0, []⟩ d p f).2) ∧
    ((has_no_override env ⟨e0, []⟩ d p f).1 = false → env.g_abort_on_slow = false →
      (wrap_fstatat env ⟨e0, []⟩ d (some p) false f =
        Outcome.ret (intRet (env.libcFstatatRes d p f))
          ⟨retErrno e0 (env.libcFstatatRes d p f),
            (has_no_override env ⟨e0, []⟩ d p f).2.trace ++ [Ev.libc_fstatat d p f]⟩ ∧
       (wrap_fstatat env ⟨e0, []⟩ d (some p) false f).trace.all
          (fun e => !isBackdoorEv e) = true) ∧
      (wrap_statx env ⟨e0, []⟩ d (some p) f mask false =
        Outcome.ret (intRet (env.libcStatxRes d p f mask))
          ⟨retErrno e0 (env.libcStatxRes d p f mask),
            (has_no_override env ⟨e0, []⟩ d p f).2.trace ++ [Ev.libc_statx d p f mask]⟩ ∧
       (wrap_statx env ⟨e0, []⟩ d (some p) f mask false).trace.all
          (fun e => !isBackdoorEv e) = true)) := by
  obtain ⟨tr, htr, hall⟩ := has_no_override_trace env ⟨e0, []⟩ d p f
  refine ⟨fun h => ⟨?_, ?_⟩, fun h hab => ⟨?_, ?_⟩, fun h hab => ⟨⟨?_, ?_⟩, ⟨?_, ?_⟩⟩⟩
  · unfold wrap_fstatat
    cases hB : env.backdoorFstatatRes d p f <;>
      simp [h, backdoor_fstatat, hB, statRet, retErrno, has_no_override_errno]
  · unfold wrap_statx
    cases hB : env.backdoorStatxRes d p f mask <;>
      simp [h, backdoor_statx, hB, unitRet, retErrno, has_no_override_errno]
  · unfold wrap_fstatat
    simp [h, hab]
  · unfold wrap_statx
    simp [h, hab]
  · unfold wrap_fstatat
    cases hL : env.libcFstatatRes d p f <;>
      simp [h, hab, doLibcFstatat, hL, intRet, retErrno, has_no_override_errno]
  · have htrace : (wrap_fstatat env ⟨e0, []⟩ d (some p) false f).trace =
        tr ++ [Ev.libc_fstatat d p f] := by
      unfold wrap_fstatat
      cases hL : env.libcFstatatRes d p f <;>
        simp [h, hab, doLibcFstatat, hL, Outcome.trace, Outcome.st, htr]
    rw [htrace, List.all_append]
    have hnb := all_probe_not_backdoor tr hall
    simp only [List.all_eq_true, Bool.not_eq_true'] at hnb
    simp [isBackdoorEv, List.all_eq_true]
    exact fun x hx => hnb x hx
  · unfold wrap_statx
    cases hL : env.libcStatxRes d p f mask <;>
      simp [h, hab, doLibcStatx, hL, intRet, retErrno, has_no_override_errno]
  · have htrace : (wrap_statx env ⟨e0, []⟩ d (some p) f mask false).trace =
        tr ++ [Ev.libc_statx d p f mask] := by
      unfold wrap_statx
      cases hL : env.libcStatxRes d p f mask <;>
        simp [h, hab, doLibcStatx, hL, Outcome.trace, Outcome.st, htr]
    rw [htrace, List.all_append]
    have hnb := all_probe_not_backdoor tr hall
    simp only [List.all_eq_true, Bool.not_eq_true'] at hnb
    simp [isBackdoorEv, List.all_eq_true]
    exact fun x hx => hnb x hx

/-- C1 witness: in `envFast` the probe on `"data"` relative to the current
directory reports no overlay and the fast path is taken; the theorem's
fast-path branch applies. -/
theorem fakefs_C1_witness :
    (has_no_override envFast ⟨5, []⟩ AT_FDCWD pRel 0).1 = true ∧
    (wrap_fstatat envFast ⟨5, []⟩ AT_FDCWD (some pRel) false 0 =
      Outcome.ret (statRet (envFast.backdoorFstatatRes AT_FDCWD pRel 0))
        ⟨retErrno 5 (envFast.backdoorFstatatRes AT_FDCWD pRel 0),
          (has_no_override envFast ⟨5, []⟩ AT_FDCWD pRel 0).2.trace ++
            [Ev.backdoor_fstatat AT_FDCWD pRel 0 FAKEFS_BACKDOOR_KEY]⟩ ∧
     wrap_statx envFast ⟨5, []⟩ AT_FDCWD (some pRel) 0 0 false =
      Outcome.ret (unitRet (envFast.backdoorStatxRes AT_FDCWD pRel 0 0))
        ⟨retErrno 5 (envFast.backdoorStatxRes AT_FDCWD pRel 0 0),
          (has_no_override envFast ⟨5, []⟩ AT_FDCWD pRel 0).2.trace ++
            [Ev.backdoor_statx AT_FDCWD pRel 0 0 FAKEFS_BACKDOOR_KEY]⟩) :=
  ⟨by decide, (fakefs_C1_stat_fast_slow envFast 5 AT_FDCWD pRel 0 0).1 (by decide)⟩

/-- C6: For both stat-family wrappers, a NULL pathname or a NULL result buffer
yields `-1` with `errno = EFAULT` immediately, with an empty event trace: no
marker probe, no fast-path syscall and no forwarded call is ever attempted. -/
theorem fakefs_C6_null_efault (env : Env) (e0 : Nat) (d : Int) (p : Option String)
    (sn : Bool) (f mask : Nat) :
    p = none ∨ sn = true →
      wrap_fstatat env ⟨e0, []⟩ d p sn f = Outcome.ret (-1) ⟨EFAULT, []⟩ ∧
      wrap_statx env ⟨e0, []⟩ d p f mask sn = Outcome.ret (-1) ⟨EFAULT, []⟩ := by
  intro h
  rcases h with h | h
  · subst h
    exact ⟨by simp [wrap_fstatat], by simp [wrap_statx]⟩
  · subst h
    cases p with
    | none => exact ⟨by simp [wrap_fstatat], by simp [wrap_statx]⟩
    | some q => exact ⟨by simp [wrap_fstatat], by simp [wrap_statx]⟩

/-- C6 witness: a NULL pathname with a non-null buffer is rejected with
EFAULT by both wrappers. -/
theorem fakefs_C6_witness :
    (none = (none : Option String) ∨ false = true) ∧
    (wrap_fstatat envFast ⟨5, []⟩ AT_FDCWD none false 0 =
        Outcome.ret (-1) ⟨EFAULT, []⟩ ∧
      wrap_statx envFast ⟨5, []⟩ AT_FDCWD none 0 0 false =
        Outcome.ret (-1) ⟨EFAULT, []⟩) :=
  ⟨Or.inl rfl, fakefs_C6_null_efault envFast 5 AT_FDCWD none false 0 0 (Or.inl rfl)⟩

/-- The empty pathname (a C string whose first byte is NUL). -/
def pEmpty : String := ""

theorem isAbs_ne_empty (p : String) (h : isAbs p = true) : ¬(p = "") := by
  intro he
  subst he
  simp [isAbs] at h

/-- C2: For each addressing form the probe accepts — empty-path addressing of
an open handle, an absolute path, a current-directory-relative path, and a
directory handle plus relative name — a probe failure with errno ENODATA,
ENOTSUP, ENOENT or ENOTDIR is classified as "no overlay" (fast path) and
every other probe outcome, including an `openat` failure in the
directory-relative form, is classified as "overlay may exist" (slow path).
`classifyProbe` maps exactly those four failures to `true`. -/
theorem fakefs_C2_probe_classification (env : Env) (st : St) (d : Int) (p : String)
    (f : Nat) :
    (f &&& AT_EMPTY_PATH ≠ 0 → p = "" →
      (has_no_override env st d p f).1 = classifyProbe (env.getxattrRes (mkFdPath d))) ∧
    (isAbs p = true →
      (has_no_override env st d p f).1 =
        classifyProbe (if f &&& AT_SYMLINK_NOFOLLOW = 0 then env.getxattrRes p
          else env.lgetxattrRes p)) ∧
    (d = AT_FDCWD → ¬(f &&& AT_EMPTY_PATH ≠ 0 ∧ p = "") →
      (has_no_override env st d p f).1 =
        classifyProbe (if f &&& AT_SYMLINK_NOFOLLOW = 0 then env.getxattrRes p
          else env.lgetxattrRes p)) ∧
    (d ≠ AT_FDCWD → isAbs p = false → ¬(f &&& AT_EMPTY_PATH ≠ 0 ∧ p = "") →
      (∀ fd : Nat,
        env.openatRes d p (!decide (f &&& AT_SYMLINK_NOFOLLOW = 0)) = Except.ok fd →
        (has_no_override env st d p f).1 =
          classifyProbe (env.getxattrRes (mkFdPath (fd : Int)))) ∧
      (∀ e : Nat,
        env.openatRes d p (!decide (f &&& AT_SYMLINK_NOFOLLOW = 0)) = Except.error e →
        (has_no_override env st d p f).1 = false)) := by
  refine ⟨?_, ?_, ?_, ?_⟩
  · intro h1 h2
    subst h2
    unfold has_no_override fd_has_no_override
    simp [h1, path_has_no_override_eq]
  · intro h
    have hne : ¬(f &&& AT_EMPTY_PATH ≠ 0 ∧ p = "") := fun hc => isAbs_ne_empty p h hc.2
    unfold has_no_override
    simp [hne, h, path_has_no_override_eq]
  · intro hd hne
    unfold has_no_override
    simp [hd, hne, path_has_no_override_eq]
  · intro hd hna hne
    have h2 : ¬(d = AT_FDCWD ∨ isAbs p = true) := by simp [hd, hna]
    constructor
    · intro fd hfd
      unfold has_no_override fd_has_no_override
      simp [hne, h2, doOpenat, hfd, path_has_no_override_eq, doClose]
    · intro e he
      unfold has_no_override
      simp [hne, h2, doOpenat, he]

/-- C2 witness: empty-path addressing with `AT_EMPTY_PATH` set: the probe on
`/proc/self/fd/3` in `envFast` fails with ENODATA, classified as no overlay. -/
theorem fakefs_C2_witness :
    (AT_EMPTY_PATH &&& AT_EMPTY_PATH ≠ 0 ∧ pEmpty = "") ∧
    ((has_no_override envFast ⟨5, []⟩ 3 pEmpty AT_EMPTY_PATH).1 =
      classifyProbe (envFast.getxattrRes (mkFdPath 3)) ∧
     (has_no_override envFast ⟨5, []⟩ 3 pEmpty AT_EMPTY_PATH).1 = true) :=
  ⟨⟨by decide, rfl⟩,
    (fakefs_C2_probe_classification envFast ⟨5, []⟩ 3 pEmpty AT_EMPTY_PATH).1
      (by decide) rfl,
    by decide⟩

/-- C4: The marker probe, the marker clear and the true-ownership comparison
all preserve the caller's `errno`: the state they return carries exactly the
`errno` they were invoked with, whatever the internal xattr, openat or stat
probes did. -/
theorem fakefs_C4_errno_preserved (env : Env) (st : St) (d : Int) (p : String)
    (f o g : Nat) :
    (has_no_override env st d p f).2.errno = st.errno ∧
    (clear_override env st d p f).2.errno = st.errno ∧
    (matches_original_ownership env st d p f o g).2.errno = st.errno :=
  ⟨rfl, rfl, rfl⟩

/-- C5: A permission change with `AT_SYMLINK_NOFOLLOW` fails unconditionally
with `-1`/ENOTSUP and an empty event trace (no path resolution, no marker
probe, no syscall), for any target including NULL; without that flag the call
is forwarded directly to the true implementation, the trace holding exactly
that forwarded call and nothing else (no marker consultation). -/
theorem fakefs_C5_fchmodat_nofollow (env : Env) (e0 : Nat) (d : Int) (p : Option String)
    (mode f : Nat) :
    (f &&& AT_SYMLINK_NOFOLLOW ≠ 0 →
      wrap_fchmodat env ⟨e0, []⟩ d p mode f = Outcome.ret (-1) ⟨ENOTSUP, []⟩) ∧
    (f &&& AT_SYMLINK_NOFOLLOW = 0 →
      wrap_fchmodat env ⟨e0, []⟩ d p mode f =
        Outcome.ret (intRet (env.libcFchmodatRes d p mode f))
          ⟨retErrno e0 (env.libcFchmodatRes d p mode f), [Ev.libc_fchmodat d p mode f]⟩) := by
  constructor
  · intro h
    simp [wrap_fchmodat, h]
  · intro h
    cases hL : env.libcFchmodatRes d p mode f <;>
      simp [wrap_fchmodat, h, doLibcFchmodat, hL, intRet, retErrno]

/-- C5 witness: chmod of an existing relative path with the no-follow flag is
rejected with ENOTSUP even though the target exists and has no marker. -/
theorem fakefs_C5_witness :
    (AT_SYMLINK_NOFOLLOW &&& AT_SYMLINK_NOFOLLOW ≠ 0) ∧
    wrap_fchmodat envFast ⟨5, []⟩ AT_FDCWD (some pRel) 438 AT_SYMLINK_NOFOLLOW =
      Outcome.ret (-1) ⟨ENOTSUP, []⟩ :=
  ⟨by decide,
    (fakefs_C5_fchmodat_nofollow envFast 5 AT_FDCWD (some pRel) 438
      AT_SYMLINK_NOFOLLOW).1 (by decide)⟩

/-- C7: Marker clearing reports success exactly when the marker is now
absent or unenforceable: removal succeeded, or failed with ENODATA (already
absent), ENOTSUP (namespace unsupported) or EPERM (no permission); every
other removal failure reports failure. Stated for both the path form and the
open-handle form. -/
theorem fakefs_C7_clear_success_iff (env : Env) (st : St) (p : String) (fo : Bool)
    (fd : Int) :
    ((path_clear_override env st p fo).1 = true ↔
      (if fo then env.removexattrRes p else env.lremovexattrRes p) = Except.ok () ∨
      ∃ e, (if fo then env.removexattrRes p else env.lremovexattrRes p) = Except.error e ∧
        (e = ENODATA ∨ e = ENOTSUP ∨ e = EPERM)) ∧
    ((fd_clear_override env st fd).1 = true ↔
      env.removexattrRes (mkFdPath fd) = Except.ok () ∨
      ∃ e, env.removexattrRes (mkFdPath fd) = Except.error e ∧
        (e = ENODATA ∨ e = ENOTSUP ∨ e = EPERM)) := by
  constructor
  · cases hr : (if fo then env.removexattrRes p else env.lremovexattrRes p) with
    | ok u =>
        cases u
        simp [path_clear_override_eq, hr, classifyClear]
    | error e =>
        simp [path_clear_override_eq, hr, classifyClear]
        tauto
  · cases hr : env.removexattrRes (mkFdPath fd) with
    | ok u =>
        cases u
        simp [fd_clear_override, path_clear_override_eq, hr, classifyClear]
    | error e =>
        simp [fd_clear_override, path_clear_override_eq, hr, classifyClear]
        tauto

/-- C10: The permission-change wrapper never validates the pathname: with the
no-follow flag it returns ENOTSUP (never EFAULT) even for a NULL pathname,
and without the flag a NULL pathname is passed through unchanged to the true
implementation. -/
theorem fakefs_C10_fchmodat_null (env : Env) (e0 : Nat) (d : Int) (mode f : Nat) :
    (f &&& AT_SYMLINK_NOFOLLOW ≠ 0 →
      wrap_fchmodat env ⟨e0, []⟩ d none mode f = Outcome.ret (-1) ⟨ENOTSUP, []⟩ ∧
      (wrap_fchmodat env ⟨e0, []⟩ d none mode f).errno ≠ EFAULT) ∧
    (f &&& AT_SYMLINK_NOFOLLOW = 0 →
      wrap_fchmodat env ⟨e0, []⟩ d none mode f =
        Outcome.ret (intRet (env.libcFchmodatRes d none mode f))
          ⟨retErrno e0 (env.libcFchmodatRes d none mode f),
            [Ev.libc_fchmodat d none mode f]⟩) := by
  constructor
  · intro h
    refine ⟨by simp [wrap_fchmodat, h], ?_⟩
    simp [wrap_fchmodat, h, Outcome.errno, Outcome.st, ENOTSUP, EFAULT]
  · intro h
    cases hL : env.libcFchmodatRes d none mode f <;>
      simp [wrap_fchmodat, h, doLibcFchmodat, hL, intRet, retErrno]

/-- C10 witness: without the no-follow flag, a NULL pathname is forwarded
unchanged to the true implementation (the trace shows the NULL argument). -/
theorem fakefs_C10_witness :
    ((0 : Nat) &&& AT_SYMLINK_NOFOLLOW = 0) ∧
    wrap_fchmodat envFast ⟨5, []⟩ AT_FDCWD none 438 0 =
      Outcome.ret (intRet (envFast.libcFchmodatRes AT_FDCWD none 438 0))
        ⟨retErrno 5 (envFast.libcFchmodatRes AT_FDCWD none 438 0),
          [Ev.libc_fchmodat AT_FDCWD none 438 0]⟩ :=
  ⟨by decide, (fakefs_C10_fchmodat_null envFast 5 AT_FDCWD 438 0).2 (by decide)⟩

theorem not_write_not_removeOk (e : Ev) (h : isMarkerWrite e = false) :
    isMarkerRemoveOk e = false := by
  cases e <;> simp_all [isMarkerWrite, isMarkerRemoveOk]

theorem all_not_write_no_removeOk (tr : List Ev)
    (h : tr.all (fun e => !isMarkerWrite e) = true) :
    tr.all (fun e => !isMarkerRemoveOk e) = true := by
  simp only [List.all_eq_true, Bool.not_eq_true'] at h ⊢
  exact fun e he => not_write_not_removeOk e (h e he)

/-- On every fallback path of `wrap_fchownat` (ownership mismatch, or marker
clearing failed), no event added by the call is a successful marker removal. -/
theorem wrap_fchownat_fallback_no_removeOk (env : Env) (st : St) (d : Int) (p : String)
    (o g f : Nat)
    (h : (matches_original_ownership env st d p f o g).1 = false ∨
      ((matches_original_ownership env st d p f o g).1 = true ∧
        (clear_override env (matches_original_ownership env st d p f o g).2 d p f).1 =
          false)) :
    ∃ tr, (wrap_fchownat env st d (some p) o g f).trace = st.trace ++ tr ∧
      tr.all (fun e => !isMarkerRemoveOk e) = true := by
  rcases h with hm | ⟨hm, hc⟩
  · obtain ⟨tr, htr, hall⟩ := wrap_fchownat_no_write_of_not_matched env st d p o g f hm
    exact ⟨tr, htr, all_not_write_no_removeOk tr hall⟩
  · obtain ⟨trc, htrc, _, hcfail⟩ :=
      clear_override_trace env (matches_original_ownership env st d p f o g).2 d p f
    have hnotok := hcfail hc
    have h' := hnotok
    simp only [List.all_eq_true, Bool.not_eq_true'] at h'
    have hmst := matches_original_ownership_state env st d p f o g
    by_cases hab : env.g_abort_on_slow
    · refine ⟨[Ev.backdoor_fstatat d p f FAKEFS_BACKDOOR_KEY] ++ trc, ?_, ?_⟩
      · unfold wrap_fchownat
        simp only [hm, hc, hab, if_true, if_false, Bool.false_eq_true, ite_false,
          ite_true, Outcome.trace, Outcome.st]
        rw [htrc, hmst]
        simp
      · simp [List.all_append, List.all_eq_true, Bool.not_eq_true', isMarkerRemoveOk]
        exact fun x hx => h' x hx
    · refine ⟨[Ev.backdoor_fstatat d p f FAKEFS_BACKDOOR_KEY] ++ trc ++
        [Ev.libc_fchownat d p o g f], ?_, ?_⟩
      · unfold wrap_fchownat
        cases hL : env.libcFchownatRes d p o g f <;>
          · simp only [hm, hc, hab, if_true, if_false, Bool.false_eq_true, ite_false,
              ite_true, doLibcFchownat, hL, Outcome.trace, Outcome.st]
            rw [htrc, hmst]
            simp
      · simp [List.all_append, List.all_eq_true, Bool.not_eq_true', isMarkerRemoveOk]
        exact fun x hx => h' x hx

/-- C3: For `wrap_fchownat` with non-null pathname: if the requested owner and
group equal the file's true ownership (read via the fast-path stat) and the
marker clears, the ownership change is issued via the fast-path channel (so
ctime is still updated) and its result returned; if the requested values
differ from the true values, or clearing fails, no successful marker removal
happens on that call's fallback and the call aborts (strict mode) or is
forwarded to the true implementation. -/
theorem fakefs_C3_chown_policy (env : Env) (e0 : Nat) (d : Int) (p : String)
    (o g f : Nat) :
    ((matches_original_ownership env ⟨e0, []⟩ d p f o g).1 = true →
      (clear_override env (matches_original_ownership env ⟨e0, []⟩ d p f o g).2 d p f).1 =
        true →
      wrap_fchownat env ⟨e0, []⟩ d (some p) o g f =
        Outcome.ret (unitRet (env.backdoorFchownatRes d p o g f))
          ⟨retErrno e0 (env.backdoorFchownatRes d p o g f),
            (clear_override env (matches_original_ownership env ⟨e0, []⟩ d p f o g).2
                d p f).2.trace ++
              [Ev.backdoor_fchownat d p o g f FAKEFS_BACKDOOR_KEY]⟩) ∧
    ((matches_original_ownership env ⟨e0, []⟩ d p f o g).1 = false →
      (env.g_abort_on_slow = true →
        wrap_fchownat env ⟨e0, []⟩ d (some p) o g f =
          Outcome.abort (matches_original_ownership env ⟨e0, []⟩ d p f o g).2) ∧
      (env.g_abort_on_slow = false →
        wrap_fchownat env ⟨e0, []⟩ d (some p) o g f =
          Outcome.ret (intRet (env.libcFchownatRes d p o g f))
            ⟨retErrno e0 (env.libcFchownatRes d p o g f),
              (matches_original_ownership env ⟨e0, []⟩ d p f o g).2.trace ++
                [Ev.libc_fchownat d p o g f]⟩) ∧
      (∀ ms q, runMarkers ms (wrap_fchownat env ⟨e0, []⟩ d (some p) o g f).trace q =
        ms q)) ∧
    ((matches_original_ownership env ⟨e0, []⟩ d p f o g).1 = true →
      (clear_override env (matches_original_ownership env ⟨e0, []⟩ d p f o g).2 d p f).1 =
        false →
      (env.g_abort_on_slow = true →
        wrap_fchownat env ⟨e0, []⟩ d (some p) o g f =
          Outcome.abort
            (clear_override env (matches_original_ownership env ⟨e0, []⟩ d p f o g).2
              d p f).2) ∧
      (env.g_abort_on_slow = false →
        wrap_fchownat env ⟨e0, []⟩ d (some p) o g f =
          Outcome.ret (intRet (env.libcFchownatRes d p o g f))
            ⟨retErrno e0 (env.libcFchownatRes d p o g f),
              (clear_override env (matches_original_ownership env ⟨e0, []⟩ d p f o g).2
                  d p f).2.trace ++
                [Ev.libc_fchownat d p o g f]⟩) ∧
      (∀ ms q, runMarkers ms (wrap_fchownat env ⟨e0, []⟩ d (some p) o g f).trace q =
        ms q)) := by
  refine ⟨?_, ?_, ?_⟩
  · intro hm hc
    unfold wrap_fchownat
    cases hB : env.backdoorFchownatRes d p o g f <;>
      simp [hm, hc, backdoor_fchownat, hB, unitRet, retErrno, clear_override_errno,
        matches_original_ownership_errno]
  · intro hm
    refine ⟨?_, ?_, ?_⟩
    · intro hab
      unfold wrap_fchownat
      simp [hm, hab]
    · intro hab
      unfold wrap_fchownat
      cases hL : env.libcFchownatRes d p o g f <;>
        simp [hm, hab, doLibcFchownat, hL, intRet, retErrno,
          matches_original_ownership_errno]
    · intro ms q
      obtain ⟨tr, htr, hall⟩ :=
        wrap_fchownat_fallback_no_removeOk env ⟨e0, []⟩ d p o g f (Or.inl hm)
      rw [htr]
      simp only [List.nil_append]
      exact runMarkers_of_no_removeOk tr ms hall q
  · intro hm hc
    refine ⟨?_, ?_, ?_⟩
    · intro hab
      unfold wrap_fchownat
      simp [hm, hc, hab]
    · intro hab
      unfold wrap_fchownat
      cases hL : env.libcFchownatRes d p o g f <;>
        simp [hm, hc, hab, doLibcFchownat, hL, intRet, retErrno, clear_override_errno,
          matches_original_ownership_errno]
    · intro ms q
      obtain ⟨tr, htr, hall⟩ :=
        wrap_fchownat_fallback_no_removeOk env ⟨e0, []⟩ d p o g f (Or.inr ⟨hm, hc⟩)
      rw [htr]
      simp only [List.nil_append]
      exact runMarkers_of_no_removeOk tr ms hall q

/-- C3 witness: in `envFast` a chown of `"data"` to its true ownership
1000:1000 matches the true ownership, the marker clears, and the fast-path
chown is issued and its result returned. -/
theorem fakefs_C3_witness :
    ((matches_original_ownership envFast ⟨5, []⟩ AT_FDCWD pRel 0 1000 1000).1 = true ∧
     (clear_override envFast
        (matches_original_ownership envFast ⟨5, []⟩ AT_FDCWD pRel 0 1000 1000).2
        AT_FDCWD pRel 0).1 = true) ∧
    wrap_fchownat envFast ⟨5, []⟩ AT_FDCWD (some pRel) 1000 1000 0 =
      Outcome.ret (unitRet (envFast.backdoorFchownatRes AT_FDCWD pRel 1000 1000 0))
        ⟨retErrno 5 (envFast.backdoorFchownatRes AT_FDCWD pRel 1000 1000 0),
          (clear_override envFast
              (matches_original_ownership envFast ⟨5, []⟩ AT_FDCWD pRel 0 1000 1000).2
              AT_FDCWD pRel 0).2.trace ++
            [Ev.backdoor_fchownat AT_FDCWD pRel 1000 1000 0 FAKEFS_BACKDOOR_KEY]⟩ :=
  ⟨⟨by decide, by decide⟩,
    (fakefs_C3_chown_policy envFast 5 AT_FDCWD pRel 1000 1000 0).1 (by decide) (by decide)⟩

/-- The trace added by `wrap_fchmodat` consists of read-only events. -/
theorem wrap_fchmodat_readonly (env : Env) (st : St) (d : Int) (p : Option String)
    (mode f : Nat) :
    ∃ tr, (wrap_fchmodat env st d p mode f).trace = st.trace ++ tr ∧
      tr.all readOnlyEv = true := by
  unfold wrap_fchmodat
  by_cases h : f &&& AT_SYMLINK_NOFOLLOW ≠ 0
  · exact ⟨[], by simp [h, Outcome.trace, Outcome.st], by simp⟩
  · refine ⟨[Ev.libc_fchmodat d p mode f], ?_,
      by simp [readOnlyEv, isMarkerWrite, getxZero]⟩
    cases hL : env.libcFchmodatRes d p mode f <;>
      simp [h, doLibcFchmodat, hL, Outcome.trace, Outcome.st]

/-- C8: No wrapped entry point ever creates an override marker. The
metadata-read wrappers and the permission-change wrapper emit only read-only
events (zero-length attribute reads, opens/closes, syscalls), so the marker
state after their trace is unchanged; the set of marked files never grows
under any wrapper, and the only marker mutation — a `removexattr` — occurs on
the ownership-change path only when the requested owner and group equal the
file's true ownership. -/
theorem fakefs_C8_markers_never_grow (env : Env) (e0 : Nat) (d : Int)
    (p? : Option String) (p : String) (sn : Bool) (f mask mode o g : Nat)
    (ms : String → Bool) (q : String) :
    (wrap_fstatat env ⟨e0, []⟩ d p? sn f).trace.all readOnlyEv = true ∧
    (wrap_statx env ⟨e0, []⟩ d p? f mask sn).trace.all readOnlyEv = true ∧
    (wrap_fchmodat env ⟨e0, []⟩ d p? mode f).trace.all readOnlyEv = true ∧
    runMarkers ms (wrap_fstatat env ⟨e0, []⟩ d p? sn f).trace q = ms q ∧
    runMarkers ms (wrap_statx env ⟨e0, []⟩ d p? f mask sn).trace q = ms q ∧
    runMarkers ms (wrap_fchmodat env ⟨e0, []⟩ d p? mode f).trace q = ms q ∧
    (runMarkers ms (wrap_fchownat env ⟨e0, []⟩ d p? o g f).trace q = true →
      ms q = true) ∧
    ((wrap_fchownat env ⟨e0, []⟩ d (some p) o g f).trace.any isMarkerWrite = true →
      (matches_original_ownership env ⟨e0, []⟩ d p f o g).1 = true) := by
  obtain ⟨t1, ht1, ha1⟩ := wrap_fstatat_readonly env ⟨e0, []⟩ d p? sn f
  obtain ⟨t2, ht2, ha2⟩ := wrap_statx_readonly env ⟨e0, []⟩ d p? f mask sn
  obtain ⟨t3, ht3, ha3⟩ := wrap_fchmodat_readonly env ⟨e0, []⟩ d p? mode f
  simp only [List.nil_append] at ht1 ht2 ht3
  refine ⟨?_, ?_, ?_, ?_, ?_, ?_, ?_, ?_⟩
  · rw [ht1]; exact ha1
  · rw [ht2]; exact ha2
  · rw [ht3]; exact ha3
  · rw [ht1]
    exact runMarkers_of_no_removeOk t1 ms (all_readonly_no_removeOk t1 ha1) q
  · rw [ht2]
    exact runMarkers_of_no_removeOk t2 ms (all_readonly_no_removeOk t2 ha2) q
  · rw [ht3]
    exact runMarkers_of_no_removeOk t3 ms (all_readonly_no_removeOk t3 ha3) q
  · exact runMarkers_le _ ms q
  · intro hany
    by_cases hm : (matches_original_ownership env ⟨e0, []⟩ d p f o g).1 = true
    · exact hm
    · exfalso
      have hm' : (matches_original_ownership env ⟨e0, []⟩ d p f o g).1 = false := by
        simpa using hm
      obtain ⟨tr, htr, hall⟩ :=
        wrap_fchownat_no_write_of_not_matched env ⟨e0, []⟩ d p o g f hm'
      simp only [List.nil_append] at htr
      rw [htr] at hany
      simp only [List.any_eq_true] at hany
      simp only [List.all_eq_true, Bool.not_eq_true'] at hall
      obtain ⟨x, hx, hw⟩ := hany
      rw [hall x hx] at hw
      exact Bool.false_ne_true hw

/-- C8 witness: in `envFast` a matching chown on `"data"` performs the only
marker mutation in the library, and indeed the ownership matched. -/
theorem fakefs_C8_witness :
    ((wrap_fchownat envFast ⟨5, []⟩ AT_FDCWD (some pRel) 1000 1000 0).trace.any
        isMarkerWrite = true) ∧
    (matches_original_ownership envFast ⟨5, []⟩ AT_FDCWD pRel 0 1000 1000).1 = true :=
  ⟨by decide,
    (fakefs_C8_markers_never_grow envFast 5 AT_FDCWD (some pRel) pRel false 0 0 438
        1000 1000 (fun _ => false) pRel).2.2.2.2.2.2.2 (by decide)⟩

/-- C9: On the ownership-change path, a successful marker removal is not
rolled back when the subsequent fast-path chown syscall fails: the syscall's
error is returned to the caller, and the marker state induced by the whole
call equals the state right after the clear (the failing syscall adds no
marker mutation). -/
theorem fakefs_C9_no_rollback (env : Env) (e0 : Nat) (d : Int) (p : String)
    (o g f e : Nat)
    (hm : (matches_original_ownership env ⟨e0, []⟩ d p f o g).1 = true)
    (hc : (clear_override env (matches_original_ownership env ⟨e0, []⟩ d p f o g).2
      d p f).1 = true)
    (hb : env.backdoorFchownatRes d p o g f = Except.error e) :
    wrap_fchownat env ⟨e0, []⟩ d (some p) o g f =
      Outcome.ret (-1)
        ⟨e, (clear_override env (matches_original_ownership env ⟨e0, []⟩ d p f o g).2
            d p f).2.trace ++
          [Ev.backdoor_fchownat d p o g f FAKEFS_BACKDOOR_KEY]⟩ ∧
    ∀ ms q, runMarkers ms (wrap_fchownat env ⟨e0, []⟩ d (some p) o g f).trace q =
      runMarkers ms
        (clear_override env (matches_original_ownership env ⟨e0, []⟩ d p f o g).2
          d p f).2.trace q := by
  have hw : wrap_fchownat env ⟨e0, []⟩ d (some p) o g f =
      Outcome.ret (-1)
        ⟨e, (clear_override env (matches_original_ownership env ⟨e0, []⟩ d p f o g).2
            d p f).2.trace ++
          [Ev.backdoor_fchownat d p o g f FAKEFS_BACKDOOR_KEY]⟩ := by
    unfold wrap_fchownat
    simp [hm, hc, backdoor_fchownat, hb]
  refine ⟨hw, fun ms q => ?_⟩
  rw [hw]
  show runMarkers ms
      ((clear_override env (matches_original_ownership env ⟨e0, []⟩ d p f o g).2
          d p f).2.trace ++
        [Ev.backdoor_fchownat d p o g f FAKEFS_BACKDOOR_KEY]) q = _
  rw [runMarkers_append]
  simp [runMarkers, markerStep]

/-- C9 witness: in `envChownFail` the chown matches the true ownership, the
marker clears, the fast-path chown fails with EPERM, and the error is
returned with the marker left cleared. -/
theorem fakefs_C9_witness :
    ((matches_original_ownership envChownFail ⟨5, []⟩ AT_FDCWD pRel 0 1000 1000).1 =
        true ∧
      (clear_override envChownFail
        (matches_original_ownership envChownFail ⟨5, []⟩ AT_FDCWD pRel 0 1000 1000).2
        AT_FDCWD pRel 0).1 = true ∧
      envChownFail.backdoorFchownatRes AT_FDCWD pRel 1000 1000 0 =
        Except.error EPERM) ∧
    wrap_fchownat envChownFail ⟨5, []⟩ AT_FDCWD (some pRel) 1000 1000 0 =
      Outcome.ret (-1)
        ⟨EPERM, (clear_override envChownFail
            (matches_original_ownership envChownFail ⟨5, []⟩ AT_FDCWD pRel 0 1000 1000).2
            AT_FDCWD pRel 0).2.trace ++
          [Ev.backdoor_fchownat AT_FDCWD pRel 1000 1000 0 FAKEFS_BACKDOOR_KEY]⟩ :=
  ⟨⟨by decide, by decide, rfl⟩,
    (fakefs_C9_no_rollback envChownFail 5 AT_FDCWD pRel 1000 1000 0 EPERM
      (by decide) (by decide) rfl).1⟩
